import Mathlib

/-!
Verification of `update_imports.py`, a one-shot marker-based text splicer.

The script reads one file into a string, performs a fixed sequence of
"find marker, slice, drop or reinsert" operations on it, and writes the
result to a second file.  We embed the string-level semantics shallowly:
Python strings become `List Char`, `str.find` (which returns the sentinel
`-1` when the needle is absent) becomes `pyFind` / `pyFindFrom` returning
`Int`, and Python slices with possibly negative indices become
`pySliceTo` / `pySliceFrom` with the usual clamping semantics.  The one
regular-expression search in the script is embedded by `reSearch`, a
leftmost-match implementation of the concrete pattern
`(interface InputProps[^}]+})`.
-/

/-- Adjust a Python slice index to a `Nat` position in a buffer of length `n`:
negative indices count from the end (clamped below by `0`), non-negative
indices are clamped above by `n`.  This is CPython's slice-index adjustment. -/
def clampIndex (n : Nat) (i : Int) : Nat :=
  if i < 0 then ((n : Int) + i).toNat else min i.toNat n

/-- Python slice `s[:i]`. -/
def pySliceTo (s : List Char) (i : Int) : List Char := s.take (clampIndex s.length i)

/-- Python slice `s[i:]`. -/
def pySliceFrom (s : List Char) (i : Int) : List Char := s.drop (clampIndex s.length i)

/-- Scan for the first position at or after offset `i` where `needle` is a
prefix of the remaining buffer. -/
def findAux (needle : List Char) : List Char → Nat → Option Nat
  | [], i => if needle.isPrefixOf ([] : List Char) then some i else none
  | c :: tl, i => if needle.isPrefixOf (c :: tl) then some i else findAux needle tl (i + 1)

/-- Python `hay.find(needle)`: index of the first occurrence, or `-1`. -/
def pyFind (hay needle : List Char) : Int :=
  match findAux needle hay 0 with
  | some i => (i : Int)
  | none => -1

/-- Python `hay.find(needle, start)`: the start offset is adjusted with the
slice rules, then the first occurrence at or after it is reported as an
absolute index, or `-1`. -/
def pyFindFrom (hay needle : List Char) (start : Int) : Int :=
  let b := clampIndex hay.length start
  match findAux needle (hay.drop b) 0 with
  | some i => ((b + i : Nat) : Int)
  | none => -1

/-- Marker at line 13 of the script: start of the `getFontSize` comment. -/
def fontSizeMarker : List Char := "// Font size utility function".toList

/-- Marker at line 42: start of the `getFontSize` declaration. -/
def getFontSizeMarker : List Char := "const getFontSize =".toList

/-- Two-character closing token searched for at lines 42, 48 and 65. -/
def closeSemiMarker : List Char := "\x7d;".toList

/-- Marker at line 47: start of the Card interfaces block. -/
def cardIfacesMarker : List Char := "// Add these interfaces after the existing ones".toList

/-- Marker at line 48: start of the `Card.Footer` assignment. -/
def cardFooterMarker : List Char := "Card.Footer = (".toList

/-- Marker at line 57: start of the duplicate type definitions block. -/
def typeDefsMarker : List Char := "// Add these type definitions".toList

/-- Marker at line 58: start of the `Renderer` interface. -/
def rendererMarker : List Char := "interface Renderer".toList

/-- Single closing brace searched for at line 58. -/
def closeBraceMarker : List Char := "\x7d".toList

/-- Marker at line 64: doc-comment heading of the duplicate `isSameMonth`. -/
def isSameMonthMarker : List Char := "/**\n * A reliable implementation of isSameMonth".toList

/-- First alternative anchor marker, lines 36 and 71. -/
def measMarker : List Char := "// Add this outside the component to cache measurements".toList

/-- Second alternative anchor marker, lines 38 and 73. -/
def measCacheMarker : List Char := "const measurementCache = \x7b".toList

/-- Marker at line 76: start of the duplicate `MonthGrid` block. -/
def monthGridMarker : List Char := "// Update the MonthGrid to use proper types for weeks".toList

/-- The literal prefix of the regular expression at line 53. -/
def inputPropsPat : List Char := "interface InputProps".toList

/-- The separator `'\n\n'` inserted at line 60. -/
def twoNewlines : List Char := "\n\n".toList

/-- The single `'\n'` inserted at line 79. -/
def newlineChar : List Char := "\n".toList

/-- The block of new import text assigned to `new_imports` at lines 19-29
of the script, reproduced verbatim (including the leading newline and the
trailing blank line of the triple-quoted literal). -/
def newImports : List Char := ("\n// Import new extracted components\nimport \x7b Card \x7d from \x27./CLACalendar/components/Card\x27;\nimport \x7b DayCell \x7d from \x27./CLACalendar/components/DayCell\x27;\nimport \x7b MonthGrid \x7d from \x27./CLACalendar/components/MonthGrid\x27;\nimport \x7b CalendarGrid \x7d from \x27./CLACalendar/components/CalendarGrid\x27;\nimport \x7b LayerControl \x7d from \x27./CLACalendar/components/LayerControl\x27;\nimport \x7b getFontSize, isSameMonth \x7d from \x27./CLACalendar/utils/calendar.utils\x27;\nimport type \x7b CLACalendarProps as ExtractedCLACalendarProps, RenderResult, Renderer \x7d from \x27./CLACalendar/CLACalendar.types\x27;\n\n").toList

/-- Attempt to match the regex `interface InputProps[^}]+\x7d` at the very
start of `s`: the literal prefix, then a maximal nonempty run of
non-brace characters, then a closing brace. -/
def matchHere (s : List Char) : Option (List Char) :=
  if inputPropsPat.isPrefixOf s then
    let rest := s.drop inputPropsPat.length
    let body := rest.takeWhile (fun c => c ≠ '\x7d')
    match body, rest.drop body.length with
    | _ :: _, '\x7d' :: _ => some (inputPropsPat ++ body ++ ['\x7d'])
    | _, _ => none
  else none

/-- Leftmost-match semantics of `re.search(r'(interface InputProps[^}]+})', s)`
at line 53: try `matchHere` at each start position from the left and return
the first successful match (which is also capture group 1, since the group
spans the whole pattern). -/
def reSearch : List Char → Option (List Char)
  | [] => matchHere []
  | c :: tl =>
    match matchHere (c :: tl) with
    | some r => some r
    | none => reSearch tl

/-- Line 54 of the script: the captured fragment when the regex matches,
and the empty string otherwise (`input_props_match.group(1) if
input_props_match else ''`). -/
def inputPropsOf (s : List Char) : List Char :=
  match reSearch s with
  | some m => m
  | none => []

/-- Lines 41-43: drop everything up to and including the `'\x7d;'` that closes
the `getFontSize` declaration. -/
def removeGetFontSize (s : List Char) : List Char :=
  let get_font_size_end := pyFindFrom s closeSemiMarker (pyFind s getFontSizeMarker) + 2
  pySliceFrom s get_font_size_end

/-- Lines 47-50: remove the span from the Card-interfaces marker up to and
including the `'\x7d;'` that closes `Card.Footer`. -/
def removeCardBlock (s : List Char) : List Char :=
  let card_props_start := pyFind s cardIfacesMarker
  let card_component_end := pyFindFrom s closeSemiMarker (pyFind s cardFooterMarker) + 2
  pySliceTo s card_props_start ++ pySliceFrom s card_component_end

/-- Lines 53-61: remove the span from the type-definitions marker up to and
including the brace closing `interface Renderer`, reinserting the captured
`interface InputProps` fragment (or nothing) plus `'\n\n'` in its place. -/
def removeRenderer (s : List Char) : List Char :=
  let renderer_start := pyFind s typeDefsMarker
  let renderer_end := pyFindFrom s closeBraceMarker (pyFind s rendererMarker) + 1
  pySliceTo s renderer_start ++ inputPropsOf s ++ twoNewlines ++ pySliceFrom s renderer_end

/-- Lines 64-67: remove the duplicate `isSameMonth` block, from its
doc-comment heading up to and including the next `'\x7d;'`. -/
def removeIsSameMonth (s : List Char) : List Char :=
  let is_same_month_start := pyFind s isSameMonthMarker
  let is_same_month_end := pyFindFrom s closeSemiMarker is_same_month_start + 2
  pySliceTo s is_same_month_start ++ pySliceFrom s is_same_month_end

/-- The two-alternative anchor lookup of lines 36-38 and again lines 71-73:
the comment marker is tried first, and only when it is absent (sentinel
`-1`) is the `measurementCache` declaration marker tried. -/
def measurementAnchor (s : List Char) : Int :=
  let m := pyFind s measMarker
  if m = -1 then pyFind s measCacheMarker else m

/-- Lines 71-80: recompute the anchor, find the `MonthGrid` marker, and only
when both lookups succeeded remove everything between them (inserting a
single newline); otherwise leave the buffer unchanged. -/
def removeMonthGrid (s : List Char) : List Char :=
  let measurement_idx := measurementAnchor s
  let month_grid_start := pyFind s monthGridMarker
  if month_grid_start ≠ -1 ∧ measurement_idx ≠ -1 then
    pySliceTo s month_grid_start ++ newlineChar ++ pySliceFrom s measurement_idx
  else s

/-- Lines 41-80 in sequence: the whole processing pipeline applied to the
"after" region `content[import_end:]`. -/
def afterPipeline (s : List Char) : List Char :=
  removeMonthGrid (removeIsSameMonth (removeRenderer (removeCardBlock (removeGetFontSize s))))

set_option linter.unusedVariables false in
/-- The pure text transformation of the script, lines 13-86, from the input
file's contents to `final_content`.  The binding `measurement_cache_start`
reproduces the unused lookup of lines 36-38. -/
def transform (content : List Char) : List Char :=
  let import_end := pyFind content fontSizeMarker
  let import_section := pySliceTo content import_end
  let updated_imports := import_section ++ newImports
  let measurement_cache_start := measurementAnchor content
  let content_after_imports := pySliceFrom content import_end
  updated_imports ++ afterPipeline content_after_imports

/-- The same transformation with the dead lines 36-38 removed. -/
def transformWithoutDeadLookup (content : List Char) : List Char :=
  let import_end := pyFind content fontSizeMarker
  let import_section := pySliceTo content import_end
  let updated_imports := import_section ++ newImports
  let content_after_imports := pySliceFrom content import_end
  updated_imports ++ afterPipeline content_after_imports

/-- An observable effect of the script on its environment: reading a file,
writing a file, or printing a line to standard output. -/
inductive Effect where
  | readFile : List Char → Effect
  | writeFile : List Char → List Char → Effect
  | printLine : List Char → Effect
deriving DecidableEq

/-- The fixed input path opened for reading at line 9. -/
def inputPath : List Char := "src/components/CLACalendar.tsx".toList

/-- The fixed output path opened for writing at line 89. -/
def outputPath : List Char := "src/components/CLACalendar.updated.tsx".toList

/-- The first status line printed at line 92. -/
def statusLine1 : List Char := "Updated file written to src/components/CLACalendar.updated.tsx".toList

/-- The second status line printed at line 93. -/
def statusLine2 : List Char := "Please review the changes before replacing the original file".toList

/-- The effect trace of a successful run of the script whose input file
holds `content`: one read of the input path (lines 9-10), one write of the
transformed text to the output path (lines 89-90), and the two status
prints (lines 92-93), in that order and nothing else. -/
def scriptEffects (content : List Char) : List Effect :=
  [Effect.readFile inputPath,
   Effect.writeFile outputPath (transform content),
   Effect.printLine statusLine1,
   Effect.printLine statusLine2]

/-- Whether an effect is a file write. -/
def effIsWrite : Effect → Bool
  | Effect.writeFile _ _ => true
  | _ => false

/-- Whether an effect is a file read. -/
def effIsRead : Effect → Bool
  | Effect.readFile _ => true
  | _ => false

/-- Whether an effect is a print to standard output. -/
def effIsPrint : Effect → Bool
  | Effect.printLine _ => true
  | _ => false

/-- A well-formed input document: all markers appear, in the order the
script expects, separated by arbitrary filler segments `s0`-`s13`. -/
def wfDoc (s0 s1 s2 s3 s4 s5 s6 s7 s8 s9 s10 s11 s12 s13 : List Char) : List Char :=
  s0 ++ fontSizeMarker ++ s1 ++ getFontSizeMarker ++ s2 ++ closeSemiMarker ++ s3 ++
    cardIfacesMarker ++ s4 ++ cardFooterMarker ++ s5 ++ closeSemiMarker ++ s6 ++
    typeDefsMarker ++ s7 ++ rendererMarker ++ s8 ++ closeBraceMarker ++ s9 ++
    isSameMonthMarker ++ s10 ++ closeSemiMarker ++ s11 ++ monthGridMarker ++ s12 ++
    measMarker ++ s13

/-- The "after" region of a well-formed document: everything from the font
size marker on (the buffer of line 41). -/
def afterDoc0 (s1 s2 s3 s4 s5 s6 s7 s8 s9 s10 s11 s12 s13 : List Char) : List Char :=
  fontSizeMarker ++ s1 ++ getFontSizeMarker ++ s2 ++ closeSemiMarker ++ s3 ++
    cardIfacesMarker ++ s4 ++ cardFooterMarker ++ s5 ++ closeSemiMarker ++ s6 ++
    typeDefsMarker ++ s7 ++ rendererMarker ++ s8 ++ closeBraceMarker ++ s9 ++
    isSameMonthMarker ++ s10 ++ closeSemiMarker ++ s11 ++ monthGridMarker ++ s12 ++
    measMarker ++ s13

/-- The buffer after the `getFontSize` removal of lines 41-43. -/
def afterDoc1 (s3 s4 s5 s6 s7 s8 s9 s10 s11 s12 s13 : List Char) : List Char :=
  s3 ++ cardIfacesMarker ++ s4 ++ cardFooterMarker ++ s5 ++ closeSemiMarker ++ s6 ++
    typeDefsMarker ++ s7 ++ rendererMarker ++ s8 ++ closeBraceMarker ++ s9 ++
    isSameMonthMarker ++ s10 ++ closeSemiMarker ++ s11 ++ monthGridMarker ++ s12 ++
    measMarker ++ s13

/-- The buffer after the Card-block removal of lines 47-50. -/
def afterDoc2 (s3 s6 s7 s8 s9 s10 s11 s12 s13 : List Char) : List Char :=
  s3 ++ s6 ++ typeDefsMarker ++ s7 ++ rendererMarker ++ s8 ++ closeBraceMarker ++ s9 ++
    isSameMonthMarker ++ s10 ++ closeSemiMarker ++ s11 ++ monthGridMarker ++ s12 ++
    measMarker ++ s13

/-- The buffer after the Renderer-block removal of lines 53-61, where `ip`
is the substituted text: the captured `interface InputProps` fragment when
the regex matched, and the empty string otherwise. -/
def afterDoc3 (ip s3 s6 s9 s10 s11 s12 s13 : List Char) : List Char :=
  s3 ++ s6 ++ ip ++ twoNewlines ++ s9 ++ isSameMonthMarker ++ s10 ++ closeSemiMarker ++ s11 ++
    monthGridMarker ++ s12 ++ measMarker ++ s13

/-- The buffer after the `isSameMonth` removal of lines 64-67. -/
def afterDoc4 (ip s3 s6 s9 s11 s12 s13 : List Char) : List Char :=
  s3 ++ s6 ++ ip ++ twoNewlines ++ s9 ++ s11 ++ monthGridMarker ++ s12 ++ measMarker ++ s13

/-- The final output on a well-formed document: the leading region, the
new-imports block, and then exactly the retained segments of the original
in their original order, interleaved only with the inserted text (the
substituted fragment `ip` and the separators). -/
def retainedOut (ip s0 s3 s6 s9 s11 s13 : List Char) : List Char :=
  s0 ++ newImports ++ s3 ++ s6 ++ ip ++ twoNewlines ++ s9 ++ s11 ++ newlineChar ++
    measMarker ++ s13

@[simp] lemma closeSemiMarker_length : closeSemiMarker.length = 2 := rfl

@[simp] lemma closeBraceMarker_length : closeBraceMarker.length = 1 := rfl

lemma natCast_ne_negOne (n : Nat) : (n : Int) ≠ -1 := by omega

lemma clampIndex_natCast (n a : Nat) (h : a ≤ n) : clampIndex n (a : Int) = a := by
  unfold clampIndex
  rw [if_neg (by omega)]
  omega

lemma pySliceTo_append (a b : List Char) : pySliceTo (a ++ b) (a.length : Int) = a := by
  unfold pySliceTo
  rw [clampIndex_natCast _ _ (by rw [List.length_append]; omega)]
  exact List.take_left a b

lemma pySliceFrom_append (a b : List Char) : pySliceFrom (a ++ b) (a.length : Int) = b := by
  unfold pySliceFrom
  rw [clampIndex_natCast _ _ (by rw [List.length_append]; omega)]
  exact List.drop_left a b

lemma pySliceTo_eq (s a b : List Char) (i : Int) (h : s = a ++ b)
    (hi : i = (a.length : Int)) : pySliceTo s i = a := by
  subst h; rw [hi]; exact pySliceTo_append a b

lemma pySliceFrom_eq (s a b : List Char) (i : Int) (h : s = a ++ b)
    (hi : i = (a.length : Int)) : pySliceFrom s i = b := by
  subst h; rw [hi]; exact pySliceFrom_append a b

lemma pySliceTo_negOne (s : List Char) : pySliceTo s (-1) = s.dropLast := by
  unfold pySliceTo clampIndex
  rw [if_pos (by omega), List.dropLast_eq_take]
  congr 1
  omega

lemma pySliceFrom_one (s : List Char) : pySliceFrom s 1 = s.drop 1 := by
  unfold pySliceFrom clampIndex
  rw [if_neg (by omega)]
  cases s with
  | nil => rfl
  | cons c tl =>
    congr 1
    simp only [List.length_cons, Int.toNat_one]
    omega

lemma inputPropsOf_none (s : List Char) (h : reSearch s = none) : inputPropsOf s = [] := by
  unfold inputPropsOf
  rw [h]

lemma inputPropsOf_some (s frag : List Char) (h : reSearch s = some frag) :
    inputPropsOf s = frag := by
  unfold inputPropsOf
  rw [h]

lemma removeGetFontSize_split (a s2 rest : List Char)
    (H2 : pyFind (a ++ getFontSizeMarker ++ s2 ++ closeSemiMarker ++ rest)
      getFontSizeMarker = (a.length : Int))
    (H3 : pyFindFrom (a ++ getFontSizeMarker ++ s2 ++ closeSemiMarker ++ rest)
      closeSemiMarker (a.length : Int) = ((a ++ getFontSizeMarker ++ s2).length : Int)) :
    removeGetFontSize (a ++ getFontSizeMarker ++ s2 ++ closeSemiMarker ++ rest) = rest := by
  simp only [removeGetFontSize]
  rw [H2, H3]
  exact pySliceFrom_eq _ (a ++ getFontSizeMarker ++ s2 ++ closeSemiMarker) rest _
    (by simp [List.append_assoc])
    (by simp only [List.length_append, closeSemiMarker_length]; push_cast; omega)

lemma removeCardBlock_split (s3 s4 s5 rest : List Char)
    (H4 : pyFind (s3 ++ cardIfacesMarker ++ s4 ++ cardFooterMarker ++ s5 ++
      closeSemiMarker ++ rest) cardIfacesMarker = (s3.length : Int))
    (H5 : pyFind (s3 ++ cardIfacesMarker ++ s4 ++ cardFooterMarker ++ s5 ++
      closeSemiMarker ++ rest) cardFooterMarker = ((s3 ++ cardIfacesMarker ++ s4).length : Int))
    (H6 : pyFindFrom (s3 ++ cardIfacesMarker ++ s4 ++ cardFooterMarker ++ s5 ++
      closeSemiMarker ++ rest) closeSemiMarker ((s3 ++ cardIfacesMarker ++ s4).length : Int) =
      ((s3 ++ cardIfacesMarker ++ s4 ++ cardFooterMarker ++ s5).length : Int)) :
    removeCardBlock (s3 ++ cardIfacesMarker ++ s4 ++ cardFooterMarker ++ s5 ++
      closeSemiMarker ++ rest) = s3 ++ rest := by
  simp only [removeCardBlock]
  rw [H4, H5, H6]
  rw [pySliceTo_eq _ s3
    (cardIfacesMarker ++ s4 ++ cardFooterMarker ++ s5 ++ closeSemiMarker ++ rest) _
    (by simp [List.append_assoc]) rfl]
  rw [pySliceFrom_eq _
    (s3 ++ cardIfacesMarker ++ s4 ++ cardFooterMarker ++ s5 ++ closeSemiMarker) rest _
    (by simp [List.append_assoc])
    (by simp only [List.length_append, closeSemiMarker_length]; push_cast; omega)]

lemma removeRenderer_split (a s7 s8 rest ip : List Char)
    (HIP : inputPropsOf (a ++ typeDefsMarker ++ s7 ++ rendererMarker ++ s8 ++
      closeBraceMarker ++ rest) = ip)
    (H8 : pyFind (a ++ typeDefsMarker ++ s7 ++ rendererMarker ++ s8 ++
      closeBraceMarker ++ rest) typeDefsMarker = (a.length : Int))
    (H9 : pyFind (a ++ typeDefsMarker ++ s7 ++ rendererMarker ++ s8 ++
      closeBraceMarker ++ rest) rendererMarker = ((a ++ typeDefsMarker ++ s7).length : Int))
    (H10 : pyFindFrom (a ++ typeDefsMarker ++ s7 ++ rendererMarker ++ s8 ++
      closeBraceMarker ++ rest) closeBraceMarker ((a ++ typeDefsMarker ++ s7).length : Int) =
      ((a ++ typeDefsMarker ++ s7 ++ rendererMarker ++ s8).length : Int)) :
    removeRenderer (a ++ typeDefsMarker ++ s7 ++ rendererMarker ++ s8 ++
      closeBraceMarker ++ rest) = a ++ ip ++ twoNewlines ++ rest := by
  simp only [removeRenderer]
  rw [HIP, H8, H9, H10]
  rw [pySliceTo_eq _ a
    (typeDefsMarker ++ s7 ++ rendererMarker ++ s8 ++ closeBraceMarker ++ rest) _
    (by simp [List.append_assoc]) rfl]
  rw [pySliceFrom_eq _
    (a ++ typeDefsMarker ++ s7 ++ rendererMarker ++ s8 ++ closeBraceMarker) rest _
    (by simp [List.append_assoc])
    (by simp only [List.length_append, closeBraceMarker_length]; push_cast; omega)]

lemma removeIsSameMonth_split (a s10 rest : List Char)
    (H11 : pyFind (a ++ isSameMonthMarker ++ s10 ++ closeSemiMarker ++ rest)
      isSameMonthMarker = (a.length : Int))
    (H12 : pyFindFrom (a ++ isSameMonthMarker ++ s10 ++ closeSemiMarker ++ rest)
      closeSemiMarker (a.length : Int) = ((a ++ isSameMonthMarker ++ s10).length : Int)) :
    removeIsSameMonth (a ++ isSameMonthMarker ++ s10 ++ closeSemiMarker ++ rest) =
      a ++ rest := by
  simp only [removeIsSameMonth]
  rw [H11, H12]
  rw [pySliceTo_eq _ a (isSameMonthMarker ++ s10 ++ closeSemiMarker ++ rest) _
    (by simp [List.append_assoc]) rfl]
  rw [pySliceFrom_eq _ (a ++ isSameMonthMarker ++ s10 ++ closeSemiMarker) rest _
    (by simp [List.append_assoc])
    (by simp only [List.length_append, closeSemiMarker_length]; push_cast; omega)]

lemma removeMonthGrid_split (a s12 rest : List Char)
    (H13 : pyFind (a ++ monthGridMarker ++ s12 ++ measMarker ++ rest) measMarker =
      ((a ++ monthGridMarker ++ s12).length : Int))
    (H14 : pyFind (a ++ monthGridMarker ++ s12 ++ measMarker ++ rest) monthGridMarker =
      (a.length : Int)) :
    removeMonthGrid (a ++ monthGridMarker ++ s12 ++ measMarker ++ rest) =
      a ++ newlineChar ++ measMarker ++ rest := by
  simp only [removeMonthGrid, measurementAnchor]
  rw [H13, H14]
  rw [if_neg (natCast_ne_negOne _)]
  rw [if_pos ⟨natCast_ne_negOne _, natCast_ne_negOne _⟩]
  rw [pySliceTo_eq _ a (monthGridMarker ++ s12 ++ measMarker ++ rest) _
    (by simp [List.append_assoc]) rfl]
  rw [pySliceFrom_eq _ (a ++ monthGridMarker ++ s12) (measMarker ++ rest) _
    (by simp [List.append_assoc]) rfl]
  simp [List.append_assoc]

lemma transform_wf (ip s0 s1 s2 s3 s4 s5 s6 s7 s8 s9 s10 s11 s12 s13 : List Char)
    (H1 : pyFind (wfDoc s0 s1 s2 s3 s4 s5 s6 s7 s8 s9 s10 s11 s12 s13) fontSizeMarker =
      (s0.length : Int))
    (H2 : pyFind (afterDoc0 s1 s2 s3 s4 s5 s6 s7 s8 s9 s10 s11 s12 s13) getFontSizeMarker =
      ((fontSizeMarker ++ s1).length : Int))
    (H3 : pyFindFrom (afterDoc0 s1 s2 s3 s4 s5 s6 s7 s8 s9 s10 s11 s12 s13) closeSemiMarker
      ((fontSizeMarker ++ s1).length : Int) =
      (((fontSizeMarker ++ s1) ++ getFontSizeMarker ++ s2).length : Int))
    (H4 : pyFind (afterDoc1 s3 s4 s5 s6 s7 s8 s9 s10 s11 s12 s13) cardIfacesMarker =
      (s3.length : Int))
    (H5 : pyFind (afterDoc1 s3 s4 s5 s6 s7 s8 s9 s10 s11 s12 s13) cardFooterMarker =
      ((s3 ++ cardIfacesMarker ++ s4).length : Int))
    (H6 : pyFindFrom (afterDoc1 s3 s4 s5 s6 s7 s8 s9 s10 s11 s12 s13) closeSemiMarker
      ((s3 ++ cardIfacesMarker ++ s4).length : Int) =
      ((s3 ++ cardIfacesMarker ++ s4 ++ cardFooterMarker ++ s5).length : Int))
    (HIP : inputPropsOf (afterDoc2 s3 s6 s7 s8 s9 s10 s11 s12 s13) = ip)
    (H8 : pyFind (afterDoc2 s3 s6 s7 s8 s9 s10 s11 s12 s13) typeDefsMarker =
      ((s3 ++ s6).length : Int))
    (H9 : pyFind (afterDoc2 s3 s6 s7 s8 s9 s10 s11 s12 s13) rendererMarker =
      (((s3 ++ s6) ++ typeDefsMarker ++ s7).length : Int))
    (H10 : pyFindFrom (afterDoc2 s3 s6 s7 s8 s9 s10 s11 s12 s13) closeBraceMarker
      (((s3 ++ s6) ++ typeDefsMarker ++ s7).length : Int) =
      (((s3 ++ s6) ++ typeDefsMarker ++ s7 ++ rendererMarker ++ s8).length : Int))
    (H11 : pyFind (afterDoc3 ip s3 s6 s9 s10 s11 s12 s13) isSameMonthMarker =
      ((s3 ++ s6 ++ ip ++ twoNewlines ++ s9).length : Int))
    (H12 : pyFindFrom (afterDoc3 ip s3 s6 s9 s10 s11 s12 s13) closeSemiMarker
      ((s3 ++ s6 ++ ip ++ twoNewlines ++ s9).length : Int) =
      (((s3 ++ s6 ++ ip ++ twoNewlines ++ s9) ++ isSameMonthMarker ++ s10).length : Int))
    (H13 : pyFind (afterDoc4 ip s3 s6 s9 s11 s12 s13) measMarker =
      (((s3 ++ s6 ++ ip ++ twoNewlines ++ s9 ++ s11) ++ monthGridMarker ++ s12).length : Int))
    (H14 : pyFind (afterDoc4 ip s3 s6 s9 s11 s12 s13) monthGridMarker =
      ((s3 ++ s6 ++ ip ++ twoNewlines ++ s9 ++ s11).length : Int)) :
    transform (wfDoc s0 s1 s2 s3 s4 s5 s6 s7 s8 s9 s10 s11 s12 s13) =
      retainedOut ip s0 s3 s6 s9 s11 s13 := by
  have h0 : transform (wfDoc s0 s1 s2 s3 s4 s5 s6 s7 s8 s9 s10 s11 s12 s13) =
      (pySliceTo (wfDoc s0 s1 s2 s3 s4 s5 s6 s7 s8 s9 s10 s11 s12 s13)
          (pyFind (wfDoc s0 s1 s2 s3 s4 s5 s6 s7 s8 s9 s10 s11 s12 s13) fontSizeMarker) ++
        newImports) ++
        removeMonthGrid (removeIsSameMonth (removeRenderer (removeCardBlock
          (removeGetFontSize (pySliceFrom (wfDoc s0 s1 s2 s3 s4 s5 s6 s7 s8 s9 s10 s11 s12 s13)
            (pyFind (wfDoc s0 s1 s2 s3 s4 s5 s6 s7 s8 s9 s10 s11 s12 s13) fontSizeMarker)))))) :=
    rfl
  rw [h0, H1]
  rw [pySliceTo_eq _ s0 (afterDoc0 s1 s2 s3 s4 s5 s6 s7 s8 s9 s10 s11 s12 s13) _
    (by simp [wfDoc, afterDoc0, List.append_assoc]) rfl]
  rw [pySliceFrom_eq _ s0 (afterDoc0 s1 s2 s3 s4 s5 s6 s7 s8 s9 s10 s11 s12 s13) _
    (by simp [wfDoc, afterDoc0, List.append_assoc]) rfl]
  rw [show afterDoc0 s1 s2 s3 s4 s5 s6 s7 s8 s9 s10 s11 s12 s13 =
      (fontSizeMarker ++ s1) ++ getFontSizeMarker ++ s2 ++ closeSemiMarker ++
        afterDoc1 s3 s4 s5 s6 s7 s8 s9 s10 s11 s12 s13 from
    by simp [afterDoc0, afterDoc1, List.append_assoc]] at H2 H3 ⊢
  rw [removeGetFontSize_split _ _ _ H2 H3]
  rw [show afterDoc1 s3 s4 s5 s6 s7 s8 s9 s10 s11 s12 s13 =
      s3 ++ cardIfacesMarker ++ s4 ++ cardFooterMarker ++ s5 ++ closeSemiMarker ++
        (s6 ++ typeDefsMarker ++ s7 ++ rendererMarker ++ s8 ++ closeBraceMarker ++ s9 ++
          isSameMonthMarker ++ s10 ++ closeSemiMarker ++ s11 ++ monthGridMarker ++ s12 ++
          measMarker ++ s13) from
    by simp [afterDoc1, List.append_assoc]] at H4 H5 H6 ⊢
  rw [removeCardBlock_split _ _ _ _ H4 H5 H6]
  rw [show s3 ++ (s6 ++ typeDefsMarker ++ s7 ++ rendererMarker ++ s8 ++ closeBraceMarker ++ s9 ++
      isSameMonthMarker ++ s10 ++ closeSemiMarker ++ s11 ++ monthGridMarker ++ s12 ++
      measMarker ++ s13) =
      (s3 ++ s6) ++ typeDefsMarker ++ s7 ++ rendererMarker ++ s8 ++ closeBraceMarker ++
        (s9 ++ isSameMonthMarker ++ s10 ++ closeSemiMarker ++ s11 ++ monthGridMarker ++ s12 ++
          measMarker ++ s13) from by simp [List.append_assoc]]
  rw [show afterDoc2 s3 s6 s7 s8 s9 s10 s11 s12 s13 =
      (s3 ++ s6) ++ typeDefsMarker ++ s7 ++ rendererMarker ++ s8 ++ closeBraceMarker ++
        (s9 ++ isSameMonthMarker ++ s10 ++ closeSemiMarker ++ s11 ++ monthGridMarker ++ s12 ++
          measMarker ++ s13) from
    by simp [afterDoc2, List.append_assoc]] at HIP H8 H9 H10
  rw [removeRenderer_split _ _ _ _ _ HIP H8 H9 H10]
  rw [show (s3 ++ s6) ++ ip ++ twoNewlines ++
      (s9 ++ isSameMonthMarker ++ s10 ++ closeSemiMarker ++ s11 ++ monthGridMarker ++ s12 ++
        measMarker ++ s13) =
      (s3 ++ s6 ++ ip ++ twoNewlines ++ s9) ++ isSameMonthMarker ++ s10 ++ closeSemiMarker ++
        (s11 ++ monthGridMarker ++ s12 ++ measMarker ++ s13) from by simp [List.append_assoc]]
  rw [show afterDoc3 ip s3 s6 s9 s10 s11 s12 s13 =
      (s3 ++ s6 ++ ip ++ twoNewlines ++ s9) ++ isSameMonthMarker ++ s10 ++ closeSemiMarker ++
        (s11 ++ monthGridMarker ++ s12 ++ measMarker ++ s13) from
    by simp [afterDoc3, List.append_assoc]] at H11 H12
  rw [removeIsSameMonth_split _ _ _ H11 H12]
  rw [show (s3 ++ s6 ++ ip ++ twoNewlines ++ s9) ++
      (s11 ++ monthGridMarker ++ s12 ++ measMarker ++ s13) =
      (s3 ++ s6 ++ ip ++ twoNewlines ++ s9 ++ s11) ++ monthGridMarker ++ s12 ++ measMarker ++ s13
    from by simp [List.append_assoc]]
  rw [show afterDoc4 ip s3 s6 s9 s11 s12 s13 =
      (s3 ++ s6 ++ ip ++ twoNewlines ++ s9 ++ s11) ++ monthGridMarker ++ s12 ++ measMarker ++ s13
    from by simp [afterDoc4, List.append_assoc]] at H13 H14
  rw [removeMonthGrid_split _ _ _ H13 H14]
  simp [retainedOut, List.append_assoc]

/-- Claim C1: whichever required marker is missing, no error is raised: the
sentinel `-1` from the failed lookup is used directly as a slice boundary
and the step still yields an output buffer, possibly truncated or
malformed.  Conjunct 1: the split marker `'// Font size utility function'`
missing makes the whole transform slice at `-1` (`content[:-1]` truncates
the last character, `content[-1:]` feeds the pipeline) and still produce
output.  Conjuncts 2 and 3: `'const getFontSize ='` missing makes the
secondary lookup start at sentinel `-1`, and when that lookup also fails
the buffer is sliced at `-1 + 2 = 1`, chopping its first character.
Conjuncts 4 and 5: the Card-interfaces and type-definitions markers
missing make their steps splice `s[:-1]`, a truncated prefix, and still
produce output. -/
theorem missing_marker_sentinel_slices :
    (∀ content, pyFind content fontSizeMarker = -1 →
      transform content =
        (content.dropLast ++ newImports) ++ afterPipeline (pySliceFrom content (-1))) ∧
    (∀ s, pyFind s getFontSizeMarker = -1 →
      removeGetFontSize s = pySliceFrom s (pyFindFrom s closeSemiMarker (-1) + 2)) ∧
    (∀ s, pyFindFrom s closeSemiMarker (pyFind s getFontSizeMarker) = -1 →
      removeGetFontSize s = s.drop 1) ∧
    (∀ s, pyFind s cardIfacesMarker = -1 →
      removeCardBlock s = s.dropLast ++
        pySliceFrom s (pyFindFrom s closeSemiMarker (pyFind s cardFooterMarker) + 2)) ∧
    (∀ s, pyFind s typeDefsMarker = -1 →
      removeRenderer s = s.dropLast ++ inputPropsOf s ++ twoNewlines ++
        pySliceFrom s (pyFindFrom s closeBraceMarker (pyFind s rendererMarker) + 1)) := by
  refine ⟨?_, ?_, ?_, ?_, ?_⟩
  · intro content h
    have h0 : transform content =
        (pySliceTo content (pyFind content fontSizeMarker) ++ newImports) ++
          afterPipeline (pySliceFrom content (pyFind content fontSizeMarker)) := rfl
    rw [h0, h, pySliceTo_negOne]
  · intro s h
    simp only [removeGetFontSize]
    rw [h]
  · intro s h
    simp only [removeGetFontSize]
    rw [h]
    exact pySliceFrom_one s
  · intro s h
    simp only [removeCardBlock]
    rw [h, pySliceTo_negOne]
  · intro s h
    simp only [removeRenderer]
    rw [h, pySliceTo_negOne]

/-- Witness for C1 at the concrete input `"abc"`, which contains none of the
required markers: every conjunct's sentinel-slice behaviour is exercised. -/
theorem missing_marker_sentinel_slices_witness :
    (transform ("abc".toList) =
      (("abc".toList).dropLast ++ newImports) ++
        afterPipeline (pySliceFrom ("abc".toList) (-1))) ∧
    (removeGetFontSize ("abc".toList) =
      pySliceFrom ("abc".toList) (pyFindFrom ("abc".toList) closeSemiMarker (-1) + 2)) ∧
    (removeGetFontSize ("abc".toList) = ("abc".toList).drop 1) ∧
    (removeCardBlock ("abc".toList) = ("abc".toList).dropLast ++
      pySliceFrom ("abc".toList)
        (pyFindFrom ("abc".toList) closeSemiMarker (pyFind ("abc".toList) cardFooterMarker) + 2)) ∧
    (removeRenderer ("abc".toList) = ("abc".toList).dropLast ++ inputPropsOf ("abc".toList) ++
      twoNewlines ++ pySliceFrom ("abc".toList)
        (pyFindFrom ("abc".toList) closeBraceMarker (pyFind ("abc".toList) rendererMarker) + 1)) :=
  ⟨missing_marker_sentinel_slices.1 _ (by decide),
   missing_marker_sentinel_slices.2.1 _ (by decide),
   missing_marker_sentinel_slices.2.2.1 _ (by decide),
   missing_marker_sentinel_slices.2.2.2.1 _ (by decide),
   missing_marker_sentinel_slices.2.2.2.2 _ (by decide)⟩

/-- Claim C2: on a well-formed input containing all markers in the expected
order (each lookup hitting its intended occurrence) — whether or not the
optional `interface InputProps` fragment is present, `ip` being whatever
the regex capture substitutes (the fragment, or the empty string) — the
output consists of the inserted text interleaved with exactly the retained
segments `s0`, `s3`, `s6`, `s9`, `s11` and `measMarker ++ s13` of the
original input, in their original order: every character outside the
removed spans is reproduced, none lost or reordered. -/
theorem transform_preserves_unremoved_text
    (ip s0 s1 s2 s3 s4 s5 s6 s7 s8 s9 s10 s11 s12 s13 : List Char)
    (H1 : pyFind (wfDoc s0 s1 s2 s3 s4 s5 s6 s7 s8 s9 s10 s11 s12 s13) fontSizeMarker =
      (s0.length : Int))
    (H2 : pyFind (afterDoc0 s1 s2 s3 s4 s5 s6 s7 s8 s9 s10 s11 s12 s13) getFontSizeMarker =
      ((fontSizeMarker ++ s1).length : Int))
    (H3 : pyFindFrom (afterDoc0 s1 s2 s3 s4 s5 s6 s7 s8 s9 s10 s11 s12 s13) closeSemiMarker
      ((fontSizeMarker ++ s1).length : Int) =
      (((fontSizeMarker ++ s1) ++ getFontSizeMarker ++ s2).length : Int))
    (H4 : pyFind (afterDoc1 s3 s4 s5 s6 s7 s8 s9 s10 s11 s12 s13) cardIfacesMarker =
      (s3.length : Int))
    (H5 : pyFind (afterDoc1 s3 s4 s5 s6 s7 s8 s9 s10 s11 s12 s13) cardFooterMarker =
      ((s3 ++ cardIfacesMarker ++ s4).length : Int))
    (H6 : pyFindFrom (afterDoc1 s3 s4 s5 s6 s7 s8 s9 s10 s11 s12 s13) closeSemiMarker
      ((s3 ++ cardIfacesMarker ++ s4).length : Int) =
      ((s3 ++ cardIfacesMarker ++ s4 ++ cardFooterMarker ++ s5).length : Int))
    (HIP : inputPropsOf (afterDoc2 s3 s6 s7 s8 s9 s10 s11 s12 s13) = ip)
    (H8 : pyFind (afterDoc2 s3 s6 s7 s8 s9 s10 s11 s12 s13) typeDefsMarker =
      ((s3 ++ s6).length : Int))
    (H9 : pyFind (afterDoc2 s3 s6 s7 s8 s9 s10 s11 s12 s13) rendererMarker =
      (((s3 ++ s6) ++ typeDefsMarker ++ s7).length : Int))
    (H10 : pyFindFrom (afterDoc2 s3 s6 s7 s8 s9 s10 s11 s12 s13) closeBraceMarker
      (((s3 ++ s6) ++ typeDefsMarker ++ s7).length : Int) =
      (((s3 ++ s6) ++ typeDefsMarker ++ s7 ++ rendererMarker ++ s8).length : Int))
    (H11 : pyFind (afterDoc3 ip s3 s6 s9 s10 s11 s12 s13) isSameMonthMarker =
      ((s3 ++ s6 ++ ip ++ twoNewlines ++ s9).length : Int))
    (H12 : pyFindFrom (afterDoc3 ip s3 s6 s9 s10 s11 s12 s13) closeSemiMarker
      ((s3 ++ s6 ++ ip ++ twoNewlines ++ s9).length : Int) =
      (((s3 ++ s6 ++ ip ++ twoNewlines ++ s9) ++ isSameMonthMarker ++ s10).length : Int))
    (H13 : pyFind (afterDoc4 ip s3 s6 s9 s11 s12 s13) measMarker =
      (((s3 ++ s6 ++ ip ++ twoNewlines ++ s9 ++ s11) ++ monthGridMarker ++ s12).length : Int))
    (H14 : pyFind (afterDoc4 ip s3 s6 s9 s11 s12 s13) monthGridMarker =
      ((s3 ++ s6 ++ ip ++ twoNewlines ++ s9 ++ s11).length : Int)) :
    transform (wfDoc s0 s1 s2 s3 s4 s5 s6 s7 s8 s9 s10 s11 s12 s13) =
      retainedOut ip s0 s3 s6 s9 s11 s13 :=
  transform_wf ip s0 s1 s2 s3 s4 s5 s6 s7 s8 s9 s10 s11 s12 s13
    H1 H2 H3 H4 H5 H6 HIP H8 H9 H10 H11 H12 H13 H14

set_option maxRecDepth 40000 in
/-- Witness for C2 at a concrete well-formed input that does contain an
`interface InputProps` fragment, so the substituted text is the captured
fragment itself. -/
theorem transform_preserves_unremoved_text_witness :
    transform (wfDoc "A\n".toList "\n".toList " x ".toList "B\n".toList "\n".toList
      " y ".toList "C\n".toList "\n".toList " z ".toList
      "interface InputProps q\x7dD\n".toList " w ".toList
      "E\n".toList "\n".toList "F\n".toList) =
      retainedOut "interface InputProps q\x7d".toList "A\n".toList "B\n".toList "C\n".toList
        "interface InputProps q\x7dD\n".toList "E\n".toList "F\n".toList :=
  transform_preserves_unremoved_text "interface InputProps q\x7d".toList "A\n".toList
    "\n".toList " x ".toList "B\n".toList "\n".toList " y ".toList "C\n".toList "\n".toList
    " z ".toList "interface InputProps q\x7dD\n".toList " w ".toList "E\n".toList
    "\n".toList "F\n".toList
    (by decide) (by decide) (by decide) (by decide) (by decide) (by decide) (by decide)
    (by decide) (by decide) (by decide) (by decide) (by decide) (by decide) (by decide)

/-- Claim C3: in the final removal step the anchor is looked up as two
alternative strings with the first match winning (the comment marker is
preferred; the `measurementCache` declaration is tried only when the
comment is absent), and the span from the `MonthGrid` marker to the anchor
is removed only when both lookups succeed; when either fails the buffer is
left unchanged. -/
theorem monthGrid_anchor_policy :
    (∀ s, pyFind s measMarker ≠ -1 → measurementAnchor s = pyFind s measMarker) ∧
    (∀ s, pyFind s measMarker = -1 → measurementAnchor s = pyFind s measCacheMarker) ∧
    (∀ s, pyFind s monthGridMarker = -1 ∨ measurementAnchor s = -1 →
      removeMonthGrid s = s) ∧
    (∀ s, pyFind s monthGridMarker ≠ -1 → measurementAnchor s ≠ -1 →
      removeMonthGrid s = pySliceTo s (pyFind s monthGridMarker) ++ newlineChar ++
        pySliceFrom s (measurementAnchor s)) := by
  refine ⟨?_, ?_, ?_, ?_⟩
  · intro s h
    simp only [measurementAnchor]
    rw [if_neg h]
  · intro s h
    simp only [measurementAnchor]
    rw [if_pos h]
  · intro s h
    simp only [removeMonthGrid]
    rw [if_neg (by tauto)]
  · intro s h1 h2
    simp only [removeMonthGrid]
    rw [if_pos ⟨h1, h2⟩]

/-- Witness for C3 at the concrete input `"abc"`, in which neither anchor
alternative nor the `MonthGrid` marker occurs. -/
theorem monthGrid_anchor_policy_witness :
    measurementAnchor ("abc".toList) = pyFind ("abc".toList) measCacheMarker ∧
    removeMonthGrid ("abc".toList) = "abc".toList :=
  ⟨monthGrid_anchor_policy.2.1 _ (by decide),
   monthGrid_anchor_policy.2.2.1 _ (Or.inl (by decide))⟩

/-- Claim C4: when the optional `interface InputProps` fragment is present
(the regex matches, capturing `frag`), the output of the type-definitions
removal step retains exactly the matched fragment text verbatim, placed
where the removed block used to be (between the retained prefix `a` and
the retained suffix `d`). -/
theorem inputProps_fragment_retained (a s7 s8 d frag : List Char)
    (hs : reSearch (a ++ typeDefsMarker ++ s7 ++ rendererMarker ++ s8 ++
      closeBraceMarker ++ d) = some frag)
    (H8 : pyFind (a ++ typeDefsMarker ++ s7 ++ rendererMarker ++ s8 ++
      closeBraceMarker ++ d) typeDefsMarker = (a.length : Int))
    (H9 : pyFind (a ++ typeDefsMarker ++ s7 ++ rendererMarker ++ s8 ++
      closeBraceMarker ++ d) rendererMarker = ((a ++ typeDefsMarker ++ s7).length : Int))
    (H10 : pyFindFrom (a ++ typeDefsMarker ++ s7 ++ rendererMarker ++ s8 ++
      closeBraceMarker ++ d) closeBraceMarker ((a ++ typeDefsMarker ++ s7).length : Int) =
      ((a ++ typeDefsMarker ++ s7 ++ rendererMarker ++ s8).length : Int)) :
    removeRenderer (a ++ typeDefsMarker ++ s7 ++ rendererMarker ++ s8 ++
      closeBraceMarker ++ d) = a ++ frag ++ twoNewlines ++ d :=
  removeRenderer_split a s7 s8 d frag (inputPropsOf_some _ _ hs) H8 H9 H10

set_option maxRecDepth 40000 in
/-- Witness for C4 at a concrete input whose retained prefix is itself the
`interface InputProps x\x7d` fragment. -/
theorem inputProps_fragment_retained_witness :
    removeRenderer ("interface InputProps x\x7dA".toList ++ typeDefsMarker ++ "B".toList ++
      rendererMarker ++ "C".toList ++ closeBraceMarker ++ "D".toList) =
      "interface InputProps x\x7dA".toList ++ "interface InputProps x\x7d".toList ++
        twoNewlines ++ "D".toList :=
  inputProps_fragment_retained "interface InputProps x\x7dA".toList "B".toList "C".toList
    "D".toList "interface InputProps x\x7d".toList
    (by decide) (by decide) (by decide) (by decide)

/-- Claim C5: when the optional `interface InputProps` pattern does not match,
the step degrades gracefully: the empty string is substituted for the
captured fragment and the removal step still produces its spliced output
(no error is possible, all operations being total). -/
theorem inputProps_missing_graceful (s : List Char) (h : reSearch s = none) :
    inputPropsOf s = [] ∧
    removeRenderer s = pySliceTo s (pyFind s typeDefsMarker) ++ twoNewlines ++
      pySliceFrom s (pyFindFrom s closeBraceMarker (pyFind s rendererMarker) + 1) := by
  refine ⟨inputPropsOf_none s h, ?_⟩
  simp only [removeRenderer]
  rw [inputPropsOf_none s h]
  simp

/-- Witness for C5 at the concrete input `"q"`, which matches no pattern. -/
theorem inputProps_missing_graceful_witness :
    inputPropsOf ("q".toList) = [] ∧
    removeRenderer ("q".toList) = pySliceTo ("q".toList) (pyFind ("q".toList) typeDefsMarker) ++
      twoNewlines ++ pySliceFrom ("q".toList)
        (pyFindFrom ("q".toList) closeBraceMarker (pyFind ("q".toList) rendererMarker) + 1) :=
  inputProps_missing_graceful _ (by decide)

/-- Claim C6: on a well-formed input — with or without the optional
`interface InputProps` fragment, `ip` being whatever the regex capture
substitutes — the new import block appears in the output strictly after
the original leading content `s0` (everything up to the split marker) and
strictly before the first retained piece `s3` of original content from the
"after" region. -/
theorem import_block_placement
    (ip s0 s1 s2 s3 s4 s5 s6 s7 s8 s9 s10 s11 s12 s13 : List Char)
    (H1 : pyFind (wfDoc s0 s1 s2 s3 s4 s5 s6 s7 s8 s9 s10 s11 s12 s13) fontSizeMarker =
      (s0.length : Int))
    (H2 : pyFind (afterDoc0 s1 s2 s3 s4 s5 s6 s7 s8 s9 s10 s11 s12 s13) getFontSizeMarker =
      ((fontSizeMarker ++ s1).length : Int))
    (H3 : pyFindFrom (afterDoc0 s1 s2 s3 s4 s5 s6 s7 s8 s9 s10 s11 s12 s13) closeSemiMarker
      ((fontSizeMarker ++ s1).length : Int) =
      (((fontSizeMarker ++ s1) ++ getFontSizeMarker ++ s2).length : Int))
    (H4 : pyFind (afterDoc1 s3 s4 s5 s6 s7 s8 s9 s10 s11 s12 s13) cardIfacesMarker =
      (s3.length : Int))
    (H5 : pyFind (afterDoc1 s3 s4 s5 s6 s7 s8 s9 s10 s11 s12 s13) cardFooterMarker =
      ((s3 ++ cardIfacesMarker ++ s4).length : Int))
    (H6 : pyFindFrom (afterDoc1 s3 s4 s5 s6 s7 s8 s9 s10 s11 s12 s13) closeSemiMarker
      ((s3 ++ cardIfacesMarker ++ s4).length : Int) =
      ((s3 ++ cardIfacesMarker ++ s4 ++ cardFooterMarker ++ s5).length : Int))
    (HIP : inputPropsOf (afterDoc2 s3 s6 s7 s8 s9 s10 s11 s12 s13) = ip)
    (H8 : pyFind (afterDoc2 s3 s6 s7 s8 s9 s10 s11 s12 s13) typeDefsMarker =
      ((s3 ++ s6).length : Int))
    (H9 : pyFind (afterDoc2 s3 s6 s7 s8 s9 s10 s11 s12 s13) rendererMarker =
      (((s3 ++ s6) ++ typeDefsMarker ++ s7).length : Int))
    (H10 : pyFindFrom (afterDoc2 s3 s6 s7 s8 s9 s10 s11 s12 s13) closeBraceMarker
      (((s3 ++ s6) ++ typeDefsMarker ++ s7).length : Int) =
      (((s3 ++ s6) ++ typeDefsMarker ++ s7 ++ rendererMarker ++ s8).length : Int))
    (H11 : pyFind (afterDoc3 ip s3 s6 s9 s10 s11 s12 s13) isSameMonthMarker =
      ((s3 ++ s6 ++ ip ++ twoNewlines ++ s9).length : Int))
    (H12 : pyFindFrom (afterDoc3 ip s3 s6 s9 s10 s11 s12 s13) closeSemiMarker
      ((s3 ++ s6 ++ ip ++ twoNewlines ++ s9).length : Int) =
      (((s3 ++ s6 ++ ip ++ twoNewlines ++ s9) ++ isSameMonthMarker ++ s10).length : Int))
    (H13 : pyFind (afterDoc4 ip s3 s6 s9 s11 s12 s13) measMarker =
      (((s3 ++ s6 ++ ip ++ twoNewlines ++ s9 ++ s11) ++ monthGridMarker ++ s12).length : Int))
    (H14 : pyFind (afterDoc4 ip s3 s6 s9 s11 s12 s13) monthGridMarker =
      ((s3 ++ s6 ++ ip ++ twoNewlines ++ s9 ++ s11).length : Int)) :
    ∃ tail, transform (wfDoc s0 s1 s2 s3 s4 s5 s6 s7 s8 s9 s10 s11 s12 s13) =
      s0 ++ newImports ++ s3 ++ tail ∧
      tail = s6 ++ ip ++ twoNewlines ++ s9 ++ s11 ++ newlineChar ++ measMarker ++ s13 := by
  refine ⟨_, ?_, rfl⟩
  rw [transform_wf ip s0 s1 s2 s3 s4 s5 s6 s7 s8 s9 s10 s11 s12 s13
    H1 H2 H3 H4 H5 H6 HIP H8 H9 H10 H11 H12 H13 H14]
  simp [retainedOut, List.append_assoc]

set_option maxRecDepth 40000 in
/-- Witness for C6 at a concrete well-formed input with no `interface
InputProps` fragment, so the substituted text is empty. -/
theorem import_block_placement_witness :
    ∃ tail, transform (wfDoc "A\n".toList "\n".toList " x ".toList "B\n".toList "\n".toList
      " y ".toList "C\n".toList "\n".toList " z ".toList "D\n".toList " w ".toList
      "E\n".toList "\n".toList "F\n".toList) =
      "A\n".toList ++ newImports ++ "B\n".toList ++ tail ∧
      tail = "C\n".toList ++ ([] : List Char) ++ twoNewlines ++ "D\n".toList ++ "E\n".toList ++
        newlineChar ++ measMarker ++ "F\n".toList :=
  import_block_placement ([] : List Char) "A\n".toList "\n".toList " x ".toList "B\n".toList
    "\n".toList " y ".toList "C\n".toList "\n".toList " z ".toList "D\n".toList
    " w ".toList "E\n".toList "\n".toList "F\n".toList
    (by decide) (by decide) (by decide) (by decide) (by decide) (by decide) (by decide)
    (by decide) (by decide) (by decide) (by decide) (by decide) (by decide) (by decide)

/-- Claim C7: the pure text transformation is deterministic: running it on
two independent, equal copies of the input yields byte-identical output. -/
theorem transform_deterministic (c1 c2 : List Char) (h : c1 = c2) :
    transform c1 = transform c2 := by
  rw [h]

/-- Witness for C7 at a concrete input. -/
theorem transform_deterministic_witness :
    transform ("copy".toList) = transform ("copy".toList) :=
  transform_deterministic _ _ rfl

/-- Claim C8: a successful run has exactly these observable effects, in
order: one read of the fixed input path, one write of the transformed text
to the fixed (distinct) output path, and two status lines on standard
output; in particular the input file is never written. -/
theorem scriptEffects_exact (content : List Char) :
    scriptEffects content = [Effect.readFile inputPath,
      Effect.writeFile outputPath (transform content),
      Effect.printLine statusLine1, Effect.printLine statusLine2] ∧
    inputPath ≠ outputPath ∧
    (∀ d, Effect.writeFile inputPath d ∉ scriptEffects content) ∧
    (scriptEffects content).filter effIsWrite =
      [Effect.writeFile outputPath (transform content)] ∧
    ((scriptEffects content).filter effIsPrint).length = 2 ∧
    (scriptEffects content).filter effIsRead = [Effect.readFile inputPath] := by
  refine ⟨rfl, by decide, ?_, rfl, rfl, rfl⟩
  intro d hmem
  have hne : inputPath ≠ outputPath := by decide
  simp [scriptEffects] at hmem
  exact hne hmem.1

/-- Claim C9: the in-memory transformation is total on every input string:
it always completes and yields an output, namely the concatenation of the
(possibly sentinel-truncated) import section, the new import block, and
the fully processed "after" region; every lookup returns `-1` at worst,
slicing at any resulting index is total, and the only regex capture access
is guarded. -/
theorem transform_total (content : List Char) :
    ∃ output, transform content = output ∧
      output = (pySliceTo content (pyFind content fontSizeMarker) ++ newImports) ++
        afterPipeline (pySliceFrom content (pyFind content fontSizeMarker)) :=
  ⟨_, rfl, rfl⟩

/-- Claim C10: the first measurement-cache lookup (lines 36-38) is dead
code: its result is never read, and the transform agrees everywhere with
the variant from which those lines are removed; the removal step instead
relies on the recomputed lookup inside `removeMonthGrid`. -/
theorem deadLookup_removable (content : List Char) :
    transform content = transformWithoutDeadLookup content := rfl
